import Mathlib

/-!
Shallow embedding of the audio-derived performance-scoring core of the
ai-interview-agent repository (audio_analyzer.py, simple_audio_analyzer.py,
adaptive_interviewer.py), together with theorems settling the frozen claims.

Conventions of the embedding:
* Python floats are modelled as exact rationals (ℚ); `round(x, n)` is modelled
  as rounding to the nearest multiple of 10^(-n) (Python rounds ties to even on
  binary floats; no claim depends on a tie).
* Python dicts returned by the scoring functions are modelled as association
  lists `List (String × ℚ)` / option-field records, so key presence and
  `dict.get(k, default)` are represented faithfully.
* Filesystem and audio-library primitives (`os.path.exists`, `os.path.getsize`,
  `wave.open`, `librosa.load`, `numpy.std`) are modelled by an explicit
  environment record `FileEnv`; a primitive that can raise is an `Option`
  (`none` = the call raised).  Code that Python wraps in `try/except` is
  embedded as an `Except`-valued body plus an explicit catch.
* `str.lower` is modelled on ASCII letters (the code only matches ASCII words).
-/

namespace Interview

/-- Python `str.split()` word splitting: split on whitespace runs, no empties.
Auxiliary: `cur` is the reversed current word being accumulated. -/
def splitWordsAux (cur : List Char) : List Char → List (List Char)
  | [] => if cur = [] then [] else [cur.reverse]
  | c :: rest =>
    if c.isWhitespace then
      if cur = [] then splitWordsAux [] rest
      else cur.reverse :: splitWordsAux [] rest
    else splitWordsAux (c :: cur) rest

/-- `len(s.split()) if s else 0` — the word-count idiom used by the sources. -/
def pyWordCount (s : String) : ℕ :=
  if s = "" then 0 else (splitWordsAux [] s.toList).length

/-- Python `s.lower()` restricted to ASCII (all matched words are ASCII). -/
def lowerChars (s : String) : List Char :=
  s.toList.map Char.toLower

/-- Python `hay.count(needle)`: non-overlapping occurrences, left to right. -/
def countOcc (needle : List Char) : List Char → ℕ
  | [] => 0
  | c :: rest =>
    if needle ≠ [] ∧ needle.isPrefixOf (c :: rest) then
      1 + countOcc needle (rest.drop (needle.length - 1))
    else
      countOcc needle rest
  termination_by l => l.length
  decreasing_by
    · simp only [List.length_drop, List.length_cons]; omega
    · simp only [List.length_cons]; omega

/-- Python `needle in hay` (substring membership). -/
def containsSeq (needle : List Char) : List Char → Bool
  | [] => needle.isEmpty
  | c :: rest => needle.isPrefixOf (c :: rest) || containsSeq needle rest

/-- Python `round(x, 1)` on the embedding's exact rationals. -/
def round1 (x : ℚ) : ℚ := (round (x * 10) : ℤ) / 10

/-- Python `round(x, 2)`. -/
def round2 (x : ℚ) : ℚ := (round (x * 100) : ℤ) / 100

/-- Python `round(x, 3)`. -/
def round3 (x : ℚ) : ℚ := (round (x * 1000) : ℤ) / 1000

/-- `numpy.mean` (the empty case, `nan` in numpy, is modelled as 0; it is
never reached on decoded audio). -/
def qMean (l : List ℚ) : ℚ := if l = [] then 0 else l.sum / l.length

/-- `numpy.max` over a list (guarded nonempty at every use site). -/
def maxD : List ℚ → ℚ
  | [] => 0
  | x :: xs => xs.foldl max x

/-- `numpy.min` over a list (guarded nonempty at every use site). -/
def minD : List ℚ → ℚ
  | [] => 0
  | x :: xs => xs.foldl min x

/-- Result record of either audio analyzer: one optional field per dict key
that the source functions can emit (`pauseRatioPct` embeds the `pause_ratio`
key, which the source stores as a percentage). -/
structure AudioResult where
  error : Option String := none
  duration : Option ℚ := none
  words_per_minute : Option ℚ := none
  pace_score : Option ℚ := none
  confidence_score : Option ℚ := none
  tone_score : Option ℚ := none
  word_count : Option ℕ := none
  analysis_summary : Option String := none
  method : Option String := none
  average_pitch : Option ℚ := none
  pitch_range : Option ℚ := none
  pitch_variation : Option ℚ := none
  pauseRatioPct : Option ℚ := none
  volume_consistency : Option ℚ := none
deriving DecidableEq

/-- Output of `librosa.load` plus the numpy/librosa feature arrays derived
from the waveform: `energy` is `librosa.feature.rms(...)`, `pitchCols` the
per-frame (pitch, magnitude) candidate columns of `librosa.piptrack`. -/
structure DecodedAudio where
  yLen : ℕ
  sr : ℚ
  energy : List ℚ
  pitchCols : List (List (ℚ × ℚ))

/-- Environment for filesystem / audio-library primitives.  An `Option`-valued
primitive models a call that can raise (`none` = it raised).  `npStd` models
`numpy.std` (an external numeric routine involving a square root). -/
structure FileEnv where
  pathExists : Bool
  getsize : Option ℕ
  waveInfo : Option (ℕ × ℕ)
  librosaLoad : Option DecodedAudio
  hasLibrosa : Bool
  npStd : List ℚ → ℚ

/- ---------- simple_audio_analyzer.py ---------- -/

/-- `calculate_pace_score` (simple_audio_analyzer.py:74-87). -/
def calculate_pace_score (wpm : ℚ) : ℚ :=
  if wpm = 0 then 30
  else if 140 ≤ wpm ∧ wpm ≤ 180 then 90 + 10 * (1 - |wpm - 160| / 20)
  else if 100 ≤ wpm ∧ wpm ≤ 200 then 70 + 20 * (1 - |wpm - 160| / 40)
  else if 80 ≤ wpm ∧ wpm ≤ 220 then 50 + 20 * (1 - |wpm - 160| / 60)
  else max 20 (50 - |wpm - 160| / 4)

def filler_words : List String := ["um", "uh", "like", "you know", "sort of", "kind of"]

def positive_words : List String :=
  ["excited", "passionate", "confident", "experienced", "skilled", "accomplished"]

def professional_words : List String :=
  ["experience", "skills", "team", "project", "challenge", "solution", "result"]

def enthusiastic_words : List String :=
  ["love", "passionate", "excited", "enjoy", "amazing", "great"]

def negative_words : List String :=
  ["difficult", "hard", "problem", "can\x27t", "unable", "confused"]

/-- `calculate_confidence_score` (simple_audio_analyzer.py:89-119). -/
def calculate_confidence_score (transcript : String) (duration : ℚ) : ℚ :=
  if transcript = "" ∨ duration = 0 then 30
  else
    let word_count := pyWordCount transcript
    let lower := lowerChars transcript
    let score1 : ℚ := 50
    let score2 :=
      if word_count > 30 then score1 + 20
      else if word_count > 15 then score1 + 10
      else if word_count < 5 then score1 - 20
      else score1
    let filler_count := (filler_words.map (fun w => countOcc w.toList lower)).sum
    let score3 :=
      if (filler_count : ℚ) > (word_count : ℚ) * (1 / 10) then score2 - 15
      else if (filler_count : ℚ) > (word_count : ℚ) * (1 / 20) then score2 - 8
      else score2
    let score4 :=
      if positive_words.any (fun w => containsSeq w.toList lower) then score3 + 10
      else score3
    max 10 (min 100 score4)

/-- `calculate_tone_score` (simple_audio_analyzer.py:121-147).  The source
also computes an unused local `words = transcript.lower().split()`. -/
def calculate_tone_score (transcript : String) : ℚ :=
  if transcript = "" then 40
  else
    let lower := lowerChars transcript
    let professional_count :=
      (professional_words.filter (fun w => containsSeq w.toList lower)).length
    let score1 : ℚ := 60
    let score2 :=
      if professional_count > 2 then score1 + 15
      else if professional_count > 0 then score1 + 8
      else score1
    let score3 :=
      if enthusiastic_words.any (fun w => containsSeq w.toList lower) then score2 + 10
      else score2
    let score4 :=
      if negative_words.any (fun w => containsSeq w.toList lower) then score3 - 10
      else score3
    max 20 (min 100 score4)

/-- `generate_simple_summary` (simple_audio_analyzer.py:149-175). -/
def generate_simple_summary (pace_score confidence_score tone_score : ℚ) : String :=
  let summary_parts : List String :=
    (if pace_score > 80 then ["excellent pacing"]
     else if pace_score > 60 then ["good pacing"]
     else ["work on pacing"]) ++
    (if confidence_score > 75 then ["confident delivery"]
     else if confidence_score > 60 then ["fairly confident"]
     else ["build more confidence"]) ++
    (if tone_score > 75 then ["professional tone"]
     else if tone_score > 60 then ["good tone"]
     else [])
  String.intercalate ", " summary_parts ++ "."

/-- The body of `analyze_audio_simple` (simple_audio_analyzer.py:18-61), i.e.
the code inside the outer `try`.  `Except.error` marks an exception escaping
to the outer handler (only `os.path.getsize` can raise here; a failing
`wave.open` or a zero frame rate is caught by the inner bare `except`, which
falls back to the file-size duration estimate). -/
def analyzeSimpleBody (env : FileEnv) (audio_path transcript : String) :
    Except String AudioResult :=
  if env.pathExists = false then
    Except.ok { error := some ("Audio file not found: " ++ audio_path) }
  else
    match env.getsize with
    | none => Except.error "getsize failed"
    | some size =>
      if size = 0 then Except.ok { error := some "Audio file is empty" }
      else
        let duration : ℚ :=
          match env.waveInfo with
          | some fr => if fr.2 = 0 then (size : ℚ) / 32000 else (fr.1 : ℚ) / (fr.2 : ℚ)
          | none => (size : ℚ) / 32000
        let word_count := pyWordCount transcript
        let words_per_minute : ℚ :=
          if 0 < duration ∧ 0 < word_count then ((word_count : ℚ) / duration) * 60 else 0
        let pace := calculate_pace_score words_per_minute
        let conf := calculate_confidence_score transcript duration
        let tone := calculate_tone_score transcript
        Except.ok
          { duration := some (round2 duration)
            words_per_minute := some (round1 words_per_minute)
            pace_score := some (round1 pace)
            confidence_score := some (round1 conf)
            tone_score := some (round1 tone)
            word_count := some word_count
            analysis_summary := some (generate_simple_summary pace conf tone)
            method := some "simple_analysis" }

/-- The record built by the outer `except` handler of `analyze_audio_simple`
(simple_audio_analyzer.py:63-72). -/
def failRecord (msg : String) : AudioResult :=
  { error := some ("Simple audio analysis failed: " ++ msg)
    duration := some 0
    words_per_minute := some 0
    pace_score := some 0
    confidence_score := some 0
    tone_score := some 0
    analysis_summary := some "Audio analysis failed" }

/-- `analyze_audio_simple` (simple_audio_analyzer.py:13-72): the body wrapped
in the outer `try/except`. -/
def analyze_audio_simple (env : FileEnv) (audio_path transcript : String) : AudioResult :=
  match analyzeSimpleBody env audio_path transcript with
  | Except.ok r => r
  | Except.error e => failRecord e

/- ---------- audio_analyzer.py ---------- -/

/-- The pitch picked from one `piptrack` column: the pitch at the first index
of maximal magnitude (`numpy.argmax`); 0 for an empty column (unreached on
real piptrack output). -/
def argmaxPitch (col : List (ℚ × ℚ)) : ℚ :=
  match col with
  | [] => 0
  | pm :: rest => (rest.foldl (fun acc x => if x.2 > acc.2 then x else acc) pm).1

/-- `generate_analysis_summary` (audio_analyzer.py:117-145); the
`tone_score` parameter is unused in the source as well. -/
def generate_analysis_summary (pace_score confidence_score _tone_score pause_frac : ℚ) :
    String :=
  let summary_parts : List String :=
    (if pace_score > 80 then ["Great speaking pace"]
     else if pace_score > 60 then ["Good speaking pace"]
     else if pace_score > 40 then ["Consider adjusting your speaking speed"]
     else ["Speaking pace needs improvement"]) ++
    (if confidence_score > 80 then ["confident delivery"]
     else if confidence_score > 60 then ["fairly confident"]
     else ["work on speaking with more confidence"]) ++
    (if pause_frac > 3 / 10 then ["reduce excessive pauses"]
     else if pause_frac < 1 / 20 then ["add strategic pauses for clarity"]
     else [])
  String.intercalate ", " summary_parts ++ "."

/-- The body of the `try` in `analyze_audio_metrics` (audio_analyzer.py:32-111).
`Except.error` marks an exception reaching the handler at line 113 (a raising
`os.path.getsize`, a raising `librosa.load`, or the `len(y)/sr` division when
the sample rate is 0). -/
def analyzeMetricsBody (env : FileEnv) (audio_path _transcript : String) :
    Except String AudioResult :=
  if env.pathExists = false then
    Except.ok { error := some ("Audio file not found: " ++ audio_path) }
  else
    match env.getsize with
    | none => Except.error "getsize failed"
    | some size =>
      if size = 0 then Except.ok { error := some "Audio file is empty" }
      else
        match env.librosaLoad with
        | none => Except.error "librosa.load failed"
        | some d =>
          if d.sr = 0 then Except.error "division by zero"
          else
            let duration : ℚ := (d.yLen : ℚ) / d.sr
            let energy := d.energy
            let energy_threshold := qMean energy * (3 / 10)
            let speech_frames := (energy.filter (fun e => e > energy_threshold)).length
            let speech_duration : ℚ := (speech_frames : ℚ) * 512 / d.sr
            let words_per_minute : ℚ :=
              if 0 < speech_duration then
                if 0 < duration then speech_duration * 4 / 2 * (60 / duration) else 0
              else 0
            let volume_mean := qMean energy
            let volume_std := env.npStd energy
            let volume_consistency := 1 / (1 + volume_std / (volume_mean + 1 / 100))
            let pitch_values := d.pitchCols.filterMap
              (fun col => let p := argmaxPitch col; if p > 0 then some p else none)
            let avg_pitch := if pitch_values ≠ [] then qMean pitch_values else 0
            let pitch_range :=
              if pitch_values ≠ [] then maxD pitch_values - minD pitch_values else 0
            let pitch_variation := if pitch_values ≠ [] then env.npStd pitch_values else 0
            let silence_threshold := qMean energy * (1 / 5)
            let silent_frames := (energy.filter (fun e => e < silence_threshold)).length
            let pause_duration : ℚ := (silent_frames : ℚ) * 512 / d.sr
            let pause_frac := if 0 < duration then pause_duration / duration else 0
            let pace := min 100 (max 0 (words_per_minute / 150 * 100))
            let conf := min 100 (volume_consistency * 100)
            let tone := max 0 (100 - |pitch_variation - 50| * 2)
            Except.ok
              { duration := some (round2 duration)
                words_per_minute := some (round1 words_per_minute)
                pace_score := some (round1 pace)
                confidence_score := some (round1 conf)
                tone_score := some (round1 tone)
                average_pitch := some (round2 avg_pitch)
                pitch_range := some (round2 pitch_range)
                pitch_variation := some (round2 pitch_variation)
                pauseRatioPct := some (round1 (pause_frac * 100))
                volume_consistency := some (round3 volume_consistency)
                analysis_summary := some (generate_analysis_summary pace conf tone pause_frac) }

/-- `analyze_audio_metrics` (audio_analyzer.py:22-115): when librosa is absent
it delegates to the simple analyzer outright; otherwise the `except` handler
at line 113 falls back to the simple analyzer. -/
def analyze_audio_metrics (env : FileEnv) (audio_path transcript : String) : AudioResult :=
  if env.hasLibrosa = false then analyze_audio_simple env audio_path transcript
  else
    match analyzeMetricsBody env audio_path transcript with
    | Except.ok r => r
    | Except.error _ => analyze_audio_simple env audio_path transcript

/- ---------- adaptive_interviewer.py ---------- -/

/-- The `audio_metrics` dict of a history entry, as read by
`calculate_performance_score`: the three score keys plus the `error` key,
each optional (mirroring `dict.get`). -/
structure Metrics where
  error : Option String := none
  pace_score : Option ℚ := none
  confidence_score : Option ℚ := none
  tone_score : Option ℚ := none
deriving DecidableEq

/-- Python truthiness of `audio_metrics.get("error")`: a present, non-empty
string (every error message the extractors produce is non-empty). -/
def Metrics.errorTruthy (m : Metrics) : Bool :=
  match m.error with
  | none => false
  | some s => !(s == "")

/-- One history entry as read by `calculate_performance_score`:
`entry.get("answer", "")` and `entry.get("audio_metrics", {})`.  `none` for
`audio_metrics` models both an absent key and an empty dict (both falsy). -/
structure Turn where
  answer : Option String := none
  audio_metrics : Option Metrics := none
deriving DecidableEq

def Turn.answerD (t : Turn) : String := t.answer.getD ""

/-- The guard `if audio_metrics and not audio_metrics.get("error")`
(adaptive_interviewer.py:34): the metrics record iff it passes. -/
def includeMetrics (t : Turn) : Option Metrics :=
  match t.audio_metrics with
  | none => none
  | some m => if m.errorTruthy then none else some m

/-- The `pace_scores` list collected by the loop (adaptive_interviewer.py:35). -/
def paceScores (history : List Turn) : List ℚ :=
  history.filterMap (fun t => (includeMetrics t).map (fun m => m.pace_score.getD 0))

/-- The `confidence_scores` list (adaptive_interviewer.py:36). -/
def confidenceScores (history : List Turn) : List ℚ :=
  history.filterMap (fun t => (includeMetrics t).map (fun m => m.confidence_score.getD 0))

/-- The `tone_scores` list (adaptive_interviewer.py:37). -/
def toneScores (history : List Turn) : List ℚ :=
  history.filterMap (fun t => (includeMetrics t).map (fun m => m.tone_score.getD 0))

/-- The content-score ladder on an answer (adaptive_interviewer.py:40-48). -/
def contentScore (t : Turn) : ℚ :=
  let answer_length := pyWordCount t.answerD
  if answer_length > 50 then 85
  else if answer_length > 20 then 70
  else if answer_length > 5 then 50
  else 20

/-- `sum(l)/len(l) if l else 50` (adaptive_interviewer.py:51-54). -/
def avgOr50 (l : List ℚ) : ℚ := if l = [] then 50 else l.sum / l.length

def avg_pace (history : List Turn) : ℚ := avgOr50 (paceScores history)

def avg_confidence (history : List Turn) : ℚ := avgOr50 (confidenceScores history)

def avg_tone (history : List Turn) : ℚ := avgOr50 (toneScores history)

def avg_content (history : List Turn) : ℚ := avgOr50 (history.map contentScore)

def communication_score (history : List Turn) : ℚ :=
  (avg_pace history + avg_confidence history + avg_tone history) / 3

def technical_score (history : List Turn) : ℚ := avg_content history

def overall_score (history : List Turn) : ℚ :=
  communication_score history * (2 / 5) + technical_score history * (3 / 5)

/-- `calculate_performance_score` (adaptive_interviewer.py:10-72), returning
the result dict as an association list. -/
def calculate_performance_score (history : List Turn) : List (String × ℚ) :=
  if history = [] then
    [("overall", 0), ("communication", 0), ("technical", 0), ("confidence", 0)]
  else
    [("overall", round1 (overall_score history)),
     ("communication", round1 (communication_score history)),
     ("technical", round1 (technical_score history)),
     ("confidence", round1 (avg_confidence history)),
     ("pace", round1 (avg_pace history)),
     ("tone", round1 (avg_tone history))]

/-- `performance_scores.get(key, default)` on the dict-as-association-list. -/
def dictGetD (d : List (String × ℚ)) (k : String) (dflt : ℚ) : ℚ :=
  (d.lookup k).getD dflt

/-- `determine_difficulty_adjustment` (adaptive_interviewer.py:74-93); the
source also reads the unused `communication` key with default 50. -/
def determine_difficulty_adjustment (performance_scores : List (String × ℚ))
    (current_question_num : ℤ) : String :=
  let overall := dictGetD performance_scores "overall" 50
  if current_question_num ≤ 2 then "moderate"
  else if overall > 80 then "harder"
  else if overall > 60 then "moderate"
  else if overall > 40 then "easier"
  else "supportive"

/-- `identify_focus_areas` (adaptive_interviewer.py:95-119); sequential
appends modelled as an ordered concatenation of guarded singletons. -/
def identify_focus_areas (performance_scores : List (String × ℚ)) (job_title : String) :
    List String :=
  (if dictGetD performance_scores "communication" 50 < 60 then ["communication_skills"]
   else []) ++
  (if dictGetD performance_scores "confidence" 50 < 50 then ["confidence_building"]
   else []) ++
  (if dictGetD performance_scores "pace" 50 < 40 then ["pacing"] else []) ++
  (if (containsSeq "engineer".toList (lowerChars job_title) = true ∨
       containsSeq "developer".toList (lowerChars job_title) = true) ∧
      dictGetD performance_scores "technical" 50 < 60 then ["technical_depth"]
   else []) ++
  (if containsSeq "manager".toList (lowerChars job_title) = true then ["leadership"]
   else [])

/- ---------- concrete data used by witnesses and counterexamples ---------- -/

/-- A turn whose metrics carry an error tag. -/
def errTurn : Turn := { audio_metrics := some { error := some "Audio file is empty" } }

/-- A valid turn whose metrics report pace 80. -/
def validTurn80 : Turn :=
  { audio_metrics :=
      some { pace_score := some 80, confidence_score := some 70, tone_score := some 60 } }

/-- Scores record for the §8 focus-area example (engineer, communication 55,
technical 55). -/
def psEng : List (String × ℚ) := [("communication", 55), ("technical", 55)]

/-- Scores record with every score at 90 for the manager example. -/
def psAll90 : List (String × ℚ) :=
  [("overall", 90), ("communication", 90), ("technical", 90), ("confidence", 90),
   ("pace", 90), ("tone", 90)]

/-- An environment where the audio file is missing. -/
def envMissing : FileEnv :=
  { pathExists := false, getsize := none, waveInfo := none, librosaLoad := none,
    hasLibrosa := true, npStd := fun _ => 0 }

/-- Validity of one metrics record per the spec data model (§3): every present
score lies in [0,100]. -/
def ValidMetrics (m : Metrics) : Prop :=
  (∀ v, m.pace_score = some v → 0 ≤ v ∧ v ≤ 100) ∧
  (∀ v, m.confidence_score = some v → 0 ≤ v ∧ v ≤ 100) ∧
  (∀ v, m.tone_score = some v → 0 ≤ v ∧ v ≤ 100)

/-- A SessionHistory whose metrics respect the spec data model. -/
def ValidHistory (history : List Turn) : Prop :=
  ∀ t ∈ history, ∀ m, t.audio_metrics = some m → ValidMetrics m

/-- The six keys of a PerformanceScores record (spec §3). -/
def sixKeys : List String :=
  ["overall", "communication", "technical", "confidence", "pace", "tone"]

/- ---------- helper lemmas ---------- -/

theorem includeMetrics_eq_none {t : Turn} {m : Metrics} {e : String}
    (ht : t.audio_metrics = some m) (he : m.error = some e) (hne : e ≠ "") :
    includeMetrics t = none := by
  simp [includeMetrics, ht, Metrics.errorTruthy, he, hne]

theorem includeMetrics_some {t : Turn} {m : Metrics} (h : includeMetrics t = some m) :
    t.audio_metrics = some m := by
  unfold includeMetrics at h
  cases ha : t.audio_metrics with
  | none => rw [ha] at h; exact absurd h (by simp)
  | some m2 =>
    rw [ha] at h
    by_cases he : m2.errorTruthy
    · simp [he] at h
    · simp [he] at h
      subst h
      rfl

theorem avgOr50_bounds {l : List ℚ} (hb : ∀ x ∈ l, 0 ≤ x ∧ x ≤ 100) :
    0 ≤ avgOr50 l ∧ avgOr50 l ≤ 100 := by
  unfold avgOr50
  split_ifs with h
  · norm_num
  · have hlen : 0 < (l.length : ℚ) := by
      have hl : l.length ≠ 0 := by simpa [List.length_eq_zero] using h
      exact_mod_cast Nat.pos_of_ne_zero hl
    constructor
    · exact div_nonneg (List.sum_nonneg fun x hx => (hb x hx).1) hlen.le
    · rw [div_le_iff hlen]
      have h2 : l.sum ≤ l.length • (100 : ℚ) :=
        List.sum_le_card_nsmul l 100 fun x hx => (hb x hx).2
      rw [nsmul_eq_mul] at h2
      linarith

theorem round1_bounds {x : ℚ} (h0 : 0 ≤ x) (h1 : x ≤ 100) :
    0 ≤ round1 x ∧ round1 x ≤ 100 := by
  unfold round1
  constructor
  · have hz : (0 : ℤ) ≤ round (x * 10) := by
      rw [round_eq]
      exact Int.floor_nonneg.mpr (by linarith)
    have hzq : (0 : ℚ) ≤ ((round (x * 10) : ℤ) : ℚ) := by exact_mod_cast hz
    linarith
  · have h2 : round (x * 10) ≤ round ((1000 : ℚ)) := by
      rw [round_eq, round_eq]
      exact Int.floor_mono (by linarith)
    have h3 : round ((1000 : ℚ)) = 1000 := by
      have := round_natCast (α := ℚ) 1000
      simpa using this
    rw [h3] at h2
    have hq : ((round (x * 10) : ℤ) : ℚ) ≤ 1000 := by exact_mod_cast h2
    linarith

theorem contentScore_bounds (t : Turn) : 0 ≤ contentScore t ∧ contentScore t ≤ 100 := by
  simp only [contentScore]
  split_ifs <;> norm_num

theorem scoresLists_bounds {history : List Turn} (hv : ValidHistory history) :
    (∀ x ∈ paceScores history, 0 ≤ x ∧ x ≤ 100) ∧
    (∀ x ∈ confidenceScores history, 0 ≤ x ∧ x ≤ 100) ∧
    (∀ x ∈ toneScores history, 0 ≤ x ∧ x ≤ 100) := by
  refine ⟨?_, ?_, ?_⟩ <;>
  · intro x hx
    simp only [paceScores, confidenceScores, toneScores, List.mem_filterMap,
      Option.map_eq_some'] at hx
    obtain ⟨t, ht, m, hm, hval⟩ := hx
    have hvm := hv t ht m (includeMetrics_some hm)
    subst hval
    first
    | (cases hp : m.pace_score with
       | none => simp
       | some v => simpa [hp] using hvm.1 v hp)
    | (cases hp : m.confidence_score with
       | none => simp
       | some v => simpa [hp] using hvm.2.1 v hp)
    | (cases hp : m.tone_score with
       | none => simp
       | some v => simpa [hp] using hvm.2.2 v hp)

/- ---------- claim theorems ---------- -/

/-- C2 counterexample: the claim says `calculate_performance_score` always
returns all six keys, but on the empty history the `pace` and `tone` keys are
absent from the returned record. -/
theorem C2_counterexample :
    List.lookup "pace" (calculate_performance_score []) = none ∧
    List.lookup "tone" (calculate_performance_score []) = none := by
  constructor <;> rfl

/-- C2 (amended): `calculate_performance_score` returns all six keys for every
non-empty history; for the empty history it returns exactly the four top-level
keys `overall`, `communication`, `technical`, `confidence`, each 0, and omits
`pace` and `tone`. -/
theorem C2_amended_keys (history : List Turn) :
    (history ≠ [] → ∀ k ∈ sixKeys,
      ∃ v, List.lookup k (calculate_performance_score history) = some v) ∧
    (history = [] → calculate_performance_score history =
      [("overall", 0), ("communication", 0), ("technical", 0), ("confidence", 0)]) := by
  constructor
  · intro hne k hk
    rw [calculate_performance_score, if_neg hne]
    simp only [sixKeys, List.mem_cons, List.not_mem_nil, or_false] at hk
    rcases hk with rfl | rfl | rfl | rfl | rfl | rfl <;> exact ⟨_, rfl⟩
  · intro he
    rw [he]
    rfl

/-- Witness for C2_amended_keys at a one-turn history and at the empty one. -/
theorem C2_witness :
    (∃ v, List.lookup "pace" (calculate_performance_score [validTurn80]) = some v) ∧
    calculate_performance_score [] =
      [("overall", 0), ("communication", 0), ("technical", 0), ("confidence", 0)] :=
  ⟨(C2_amended_keys [validTurn80]).1 (by simp) "pace" (by simp [sixKeys]),
   (C2_amended_keys []).2 rfl⟩

/-- C5: `determine_difficulty_adjustment` returns `moderate` whenever the
question index is at most 2, regardless of scores; otherwise it maps
`overall` > 80 to `harder`, > 60 to `moderate`, > 40 to `easier`, else
`supportive` (in particular, at index 3: 85 → harder, 65 → moderate,
45 → easier, 20 → supportive). -/
theorem C5_difficulty_policy (ps : List (String × ℚ)) (idx : ℤ) :
    (idx ≤ 2 → determine_difficulty_adjustment ps idx = "moderate") ∧
    (2 < idx → 80 < dictGetD ps "overall" 50 →
      determine_difficulty_adjustment ps idx = "harder") ∧
    (2 < idx → 60 < dictGetD ps "overall" 50 → dictGetD ps "overall" 50 ≤ 80 →
      determine_difficulty_adjustment ps idx = "moderate") ∧
    (2 < idx → 40 < dictGetD ps "overall" 50 → dictGetD ps "overall" 50 ≤ 60 →
      determine_difficulty_adjustment ps idx = "easier") ∧
    (2 < idx → dictGetD ps "overall" 50 ≤ 40 →
      determine_difficulty_adjustment ps idx = "supportive") ∧
    determine_difficulty_adjustment [("overall", 85)] 3 = "harder" ∧
    determine_difficulty_adjustment [("overall", 65)] 3 = "moderate" ∧
    determine_difficulty_adjustment [("overall", 45)] 3 = "easier" ∧
    determine_difficulty_adjustment [("overall", 20)] 3 = "supportive" := by
  refine ⟨?_, ?_, ?_, ?_, ?_, ?_, ?_, ?_, ?_⟩
  · intro h
    rw [determine_difficulty_adjustment, if_pos h]
  · intro h1 h2
    rw [determine_difficulty_adjustment, if_neg (by omega), if_pos h2]
  · intro h1 h2 h3
    rw [determine_difficulty_adjustment, if_neg (by omega), if_neg (by linarith),
      if_pos h2]
  · intro h1 h2 h3
    rw [determine_difficulty_adjustment, if_neg (by omega), if_neg (by linarith),
      if_neg (by linarith), if_pos h2]
  · intro h1 h2
    rw [determine_difficulty_adjustment, if_neg (by omega), if_neg (by linarith),
      if_neg (by linarith), if_neg (by linarith)]
  · norm_num [determine_difficulty_adjustment, dictGetD, List.lookup]
  · norm_num [determine_difficulty_adjustment, dictGetD, List.lookup]
  · norm_num [determine_difficulty_adjustment, dictGetD, List.lookup]
  · norm_num [determine_difficulty_adjustment, dictGetD, List.lookup]

/-- Witness for C5_difficulty_policy: each guarded branch at a concrete
score record and question index. -/
theorem C5_witness :
    determine_difficulty_adjustment psAll90 1 = "moderate" ∧
    determine_difficulty_adjustment psAll90 3 = "harder" ∧
    determine_difficulty_adjustment [("overall", 70)] 4 = "moderate" ∧
    determine_difficulty_adjustment [("overall", 50)] 4 = "easier" ∧
    determine_difficulty_adjustment [("overall", 30)] 4 = "supportive" :=
  ⟨(C5_difficulty_policy psAll90 1).1 (by norm_num),
   (C5_difficulty_policy psAll90 3).2.1 (by norm_num)
     (by norm_num [dictGetD, psAll90, List.lookup]),
   (C5_difficulty_policy [("overall", 70)] 4).2.2.1 (by norm_num)
     (by norm_num [dictGetD, List.lookup]) (by norm_num [dictGetD, List.lookup]),
   (C5_difficulty_policy [("overall", 50)] 4).2.2.2.1 (by norm_num)
     (by norm_num [dictGetD, List.lookup]) (by norm_num [dictGetD, List.lookup]),
   (C5_difficulty_policy [("overall", 30)] 4).2.2.2.2.1 (by norm_num)
     (by norm_num [dictGetD, List.lookup])⟩

/-- C8: the fallback pace ladder checks its overlapping bands in listed order
taking the first match; it returns 30 at wpm = 0 and 100 at wpm = 160. -/
theorem C8_pace_ladder :
    calculate_pace_score 0 = 30 ∧ calculate_pace_score 160 = 100 ∧
    (∀ wpm : ℚ, wpm ≠ 0 → 140 ≤ wpm → wpm ≤ 180 →
      calculate_pace_score wpm = 90 + 10 * (1 - |wpm - 160| / 20)) ∧
    (∀ wpm : ℚ, wpm ≠ 0 → ¬(140 ≤ wpm ∧ wpm ≤ 180) → 100 ≤ wpm → wpm ≤ 200 →
      calculate_pace_score wpm = 70 + 20 * (1 - |wpm - 160| / 40)) ∧
    (∀ wpm : ℚ, wpm ≠ 0 → ¬(140 ≤ wpm ∧ wpm ≤ 180) → ¬(100 ≤ wpm ∧ wpm ≤ 200) →
      80 ≤ wpm → wpm ≤ 220 →
      calculate_pace_score wpm = 50 + 20 * (1 - |wpm - 160| / 60)) ∧
    (∀ wpm : ℚ, wpm ≠ 0 → ¬(140 ≤ wpm ∧ wpm ≤ 180) → ¬(100 ≤ wpm ∧ wpm ≤ 200) →
      ¬(80 ≤ wpm ∧ wpm ≤ 220) →
      calculate_pace_score wpm = max 20 (50 - |wpm - 160| / 4)) := by
  refine ⟨by norm_num [calculate_pace_score], by norm_num [calculate_pace_score],
    ?_, ?_, ?_, ?_⟩
  · intro wpm h0 h1 h2
    rw [calculate_pace_score, if_neg h0, if_pos ⟨h1, h2⟩]
  · intro wpm h0 hb1 h1 h2
    rw [calculate_pace_score, if_neg h0, if_neg hb1, if_pos ⟨h1, h2⟩]
  · intro wpm h0 hb1 hb2 h1 h2
    rw [calculate_pace_score, if_neg h0, if_neg hb1, if_neg hb2, if_pos ⟨h1, h2⟩]
  · intro wpm h0 hb1 hb2 hb3
    rw [calculate_pace_score, if_neg h0, if_neg hb1, if_neg hb2, if_neg hb3]

/-- Witness for C8_pace_ladder: each band instantiated at a concrete wpm. -/
theorem C8_witness :
    calculate_pace_score 160 = 90 + 10 * (1 - |(160 : ℚ) - 160| / 20) ∧
    calculate_pace_score 190 = 70 + 20 * (1 - |(190 : ℚ) - 160| / 40) ∧
    calculate_pace_score 90 = 50 + 20 * (1 - |(90 : ℚ) - 160| / 60) ∧
    calculate_pace_score 60 = max 20 (50 - |(60 : ℚ) - 160| / 4) :=
  ⟨C8_pace_ladder.2.2.1 160 (by norm_num) (by norm_num) (by norm_num),
   C8_pace_ladder.2.2.2.1 190 (by norm_num) (by norm_num) (by norm_num) (by norm_num),
   C8_pace_ladder.2.2.2.2.1 90 (by norm_num) (by norm_num) (by norm_num) (by norm_num)
     (by norm_num),
   C8_pace_ladder.2.2.2.2.2 60 (by norm_num) (by norm_num) (by norm_num) (by norm_num)⟩

/-- C9 counterexample: the claim says every metric's top phrase requires a
score above 80, but `generate_simple_summary` switches the confidence phrase
between 70 and 78 — two scores in the claim's same (60, 80] band. -/
theorem C9_counterexample :
    (60 : ℚ) < 78 ∧ (78 : ℚ) ≤ 80 ∧ (60 : ℚ) < 70 ∧ (70 : ℚ) ≤ 80 ∧
    generate_simple_summary 70 78 70 ≠ generate_simple_summary 70 70 70 := by
  refine ⟨by norm_num, by norm_num, by norm_num, by norm_num, ?_⟩
  decide

/-- C9 (amended): the fallback summary picks the pace phrase by > 80 / > 60 /
else, but the confidence and tone phrases by > 75 / > 60; the tone phrase is
omitted entirely (not replaced by a low phrase) when tone ≤ 60. -/
theorem C9_amended_summary (p c t : ℚ) :
    generate_simple_summary p c t =
      (if p > 80 then "excellent pacing"
       else if p > 60 then "good pacing" else "work on pacing") ++ ", " ++
      (if c > 75 then "confident delivery"
       else if c > 60 then "fairly confident" else "build more confidence") ++
      (if t > 75 then ", professional tone"
       else if t > 60 then ", good tone" else "") ++ "." := by
  unfold generate_simple_summary
  split_ifs <;> rfl

/-- C10: for every wpm ≥ 0 the fallback pace ladder stays within [20, 100]. -/
theorem C10_pace_bounds (wpm : ℚ) (_hw : 0 ≤ wpm) :
    20 ≤ calculate_pace_score wpm ∧ calculate_pace_score wpm ≤ 100 := by
  unfold calculate_pace_score
  split_ifs with h0 h1 h2 h3
  · norm_num
  · have hd0 : (0 : ℚ) ≤ |wpm - 160| := abs_nonneg _
    have hdle : |wpm - 160| ≤ 20 := abs_le.mpr ⟨by linarith [h1.1], by linarith [h1.2]⟩
    constructor <;> linarith
  · have hd0 : (0 : ℚ) ≤ |wpm - 160| := abs_nonneg _
    have hdle : |wpm - 160| ≤ 60 := abs_le.mpr ⟨by linarith [h2.1], by linarith [h2.2]⟩
    constructor <;> linarith
  · have hd0 : (0 : ℚ) ≤ |wpm - 160| := abs_nonneg _
    have hdle : |wpm - 160| ≤ 80 := abs_le.mpr ⟨by linarith [h3.1], by linarith [h3.2]⟩
    constructor <;> linarith
  · refine ⟨le_max_left _ _, max_le (by norm_num) ?_⟩
    have hd0 : (0 : ℚ) ≤ |wpm - 160| := abs_nonneg _
    linarith

/-- Witness for C10_pace_bounds at wpm = 160. -/
theorem C10_witness :
    20 ≤ calculate_pace_score 160 ∧ calculate_pace_score 160 ≤ 100 :=
  C10_pace_bounds 160 (by norm_num)

/-- C3: turns whose metrics carry a (non-empty, hence truthy) error string are
excluded from the pace/confidence/tone score lists that
`calculate_performance_score` averages — removing such a turn from anywhere in
the history leaves all three lists unchanged; concretely, the history of one
error-tagged turn and one valid turn with pace 80 scores pace = 80, not 40. -/
theorem C3_error_excluded :
    (∀ (pre post : List Turn) (t : Turn) (m : Metrics) (e : String),
        t.audio_metrics = some m → m.error = some e → e ≠ "" →
        paceScores (pre ++ t :: post) = paceScores (pre ++ post) ∧
        confidenceScores (pre ++ t :: post) = confidenceScores (pre ++ post) ∧
        toneScores (pre ++ t :: post) = toneScores (pre ++ post)) ∧
    List.lookup "pace" (calculate_performance_score [errTurn, validTurn80]) = some 80 := by
  constructor
  · intro pre post t m e ht he hne
    have hinc : includeMetrics t = none := includeMetrics_eq_none ht he hne
    refine ⟨?_, ?_, ?_⟩ <;>
      simp [paceScores, confidenceScores, toneScores, List.filterMap_append, hinc]
  · have hlk : List.lookup "pace" (calculate_performance_score [errTurn, validTurn80]) =
        some (round1 (avg_pace [errTurn, validTurn80])) := by
      rw [calculate_performance_score, if_neg (by simp)]
      rfl
    rw [hlk]
    have h : paceScores [errTurn, validTurn80] = [80] := by
      simp [paceScores, errTurn, validTurn80, includeMetrics, Metrics.errorTruthy]
    rw [avg_pace, h]
    norm_num [avgOr50, round1]

/-- Witness for C3_error_excluded: the error-tagged turn dropped from a
concrete two-turn history. -/
theorem C3_witness :
    paceScores ([] ++ errTurn :: [validTurn80]) = paceScores ([] ++ [validTurn80]) :=
  (C3_error_excluded.1 [] [validTurn80] errTurn
    { error := some "Audio file is empty" } "Audio file is empty" rfl rfl
    (by decide)).1

/-- C4: for every non-empty history whose metrics respect the spec data model
(present scores in [0,100]), each of the six scores that
`calculate_performance_score` returns lies in [0,100]. -/
theorem C4_scores_in_range (history : List Turn) (hne : history ≠ [])
    (hv : ValidHistory history) :
    ∀ k ∈ sixKeys, ∃ v, List.lookup k (calculate_performance_score history) = some v ∧
      0 ≤ v ∧ v ≤ 100 := by
  obtain ⟨hp, hc, ht⟩ := scoresLists_bounds hv
  have hap : 0 ≤ avg_pace history ∧ avg_pace history ≤ 100 := avgOr50_bounds hp
  have hac : 0 ≤ avg_confidence history ∧ avg_confidence history ≤ 100 := avgOr50_bounds hc
  have hat : 0 ≤ avg_tone history ∧ avg_tone history ≤ 100 := avgOr50_bounds ht
  have hacon : 0 ≤ avg_content history ∧ avg_content history ≤ 100 := by
    refine avgOr50_bounds ?_
    intro x hx
    simp only [List.mem_map] at hx
    obtain ⟨t, _, rfl⟩ := hx
    exact contentScore_bounds t
  have hcomm : 0 ≤ communication_score history ∧ communication_score history ≤ 100 := by
    unfold communication_score
    constructor <;> linarith [hap.1, hap.2, hac.1, hac.2, hat.1, hat.2]
  have htech : 0 ≤ technical_score history ∧ technical_score history ≤ 100 := hacon
  have hover : 0 ≤ overall_score history ∧ overall_score history ≤ 100 := by
    unfold overall_score
    constructor <;> linarith [hcomm.1, hcomm.2, htech.1, htech.2]
  intro k hk
  rw [calculate_performance_score, if_neg hne]
  simp only [sixKeys, List.mem_cons, List.not_mem_nil, or_false] at hk
  rcases hk with rfl | rfl | rfl | rfl | rfl | rfl
  · exact ⟨_, rfl, round1_bounds hover.1 hover.2⟩
  · exact ⟨_, rfl, round1_bounds hcomm.1 hcomm.2⟩
  · exact ⟨_, rfl, round1_bounds htech.1 htech.2⟩
  · exact ⟨_, rfl, round1_bounds hac.1 hac.2⟩
  · exact ⟨_, rfl, round1_bounds hap.1 hap.2⟩
  · exact ⟨_, rfl, round1_bounds hat.1 hat.2⟩

/-- Witness for C4_scores_in_range on a concrete one-turn valid history. -/
theorem C4_witness :
    ∃ v, List.lookup "pace" (calculate_performance_score [validTurn80]) = some v ∧
      0 ≤ v ∧ v ≤ 100 :=
  C4_scores_in_range [validTurn80] (by simp)
    (by
      intro t ht m hm
      simp only [List.mem_singleton] at ht
      subst ht
      simp only [validTurn80, Option.some.injEq] at hm
      subst hm
      refine ⟨?_, ?_, ?_⟩ <;> (intro v hv; simp only [Option.some.injEq] at hv) <;>
        (rw [← hv]; norm_num))
    "pace" (by simp [sixKeys])

/-- C6: `identify_focus_areas` includes `communication_skills` iff
communication < 60, `confidence_building` iff confidence < 50, `pacing` iff
pace < 40, `technical_depth` iff technical < 60 and the lowered job title
contains "engineer" or "developer", and `leadership` iff the lowered job
title contains "manager", independent of scores; in particular a Senior
Engineer at communication = technical = 55 gets both `communication_skills`
and `technical_depth`, and a Sales Manager with all scores 90 still gets
`leadership`. -/
theorem C6_focus_area_rules (ps : List (String × ℚ)) (title : String) :
    ("communication_skills" ∈ identify_focus_areas ps title ↔
        dictGetD ps "communication" 50 < 60) ∧
    ("confidence_building" ∈ identify_focus_areas ps title ↔
        dictGetD ps "confidence" 50 < 50) ∧
    ("pacing" ∈ identify_focus_areas ps title ↔ dictGetD ps "pace" 50 < 40) ∧
    ("technical_depth" ∈ identify_focus_areas ps title ↔
        ((containsSeq "engineer".toList (lowerChars title) = true ∨
          containsSeq "developer".toList (lowerChars title) = true) ∧
         dictGetD ps "technical" 50 < 60)) ∧
    ("leadership" ∈ identify_focus_areas ps title ↔
        containsSeq "manager".toList (lowerChars title) = true) ∧
    ("communication_skills" ∈ identify_focus_areas psEng "Senior Engineer" ∧
     "technical_depth" ∈ identify_focus_areas psEng "Senior Engineer") ∧
    "leadership" ∈ identify_focus_areas psAll90 "Sales Manager" := by
  refine ⟨?_, ?_, ?_, ?_, ?_, ⟨by decide, by decide⟩, by decide⟩ <;>
  · simp only [identify_focus_areas, List.mem_append]
    split_ifs <;> simp_all

/-- C7: `analyze_audio_simple` never throws — for every environment, audio
path and transcript it returns a structured record: the body's record when the
body does not raise, and otherwise the terminal record with the error field
set, all scores and timings 0, and summary "Audio analysis failed". -/
theorem C7_fallback_never_throws (env : FileEnv) (audio_path transcript : String) :
    (∃ r, analyzeSimpleBody env audio_path transcript = Except.ok r ∧
        analyze_audio_simple env audio_path transcript = r) ∨
    (∃ e, analyzeSimpleBody env audio_path transcript = Except.error e ∧
        (analyze_audio_simple env audio_path transcript).error =
          some ("Simple audio analysis failed: " ++ e) ∧
        (analyze_audio_simple env audio_path transcript).pace_score = some 0 ∧
        (analyze_audio_simple env audio_path transcript).confidence_score = some 0 ∧
        (analyze_audio_simple env audio_path transcript).tone_score = some 0 ∧
        (analyze_audio_simple env audio_path transcript).duration = some 0 ∧
        (analyze_audio_simple env audio_path transcript).words_per_minute = some 0 ∧
        (analyze_audio_simple env audio_path transcript).analysis_summary =
          some "Audio analysis failed") := by
  cases hb : analyzeSimpleBody env audio_path transcript with
  | ok r =>
    exact Or.inl ⟨r, rfl, by simp only [analyze_audio_simple, hb]⟩
  | error e =>
    have hs : analyze_audio_simple env audio_path transcript = failRecord e := by
      simp only [analyze_audio_simple, hb]
    exact Or.inr ⟨e, rfl, by rw [hs]; rfl, by rw [hs]; rfl, by rw [hs]; rfl,
      by rw [hs]; rfl, by rw [hs]; rfl, by rw [hs]; rfl, by rw [hs]; rfl⟩

/-- C1: whenever the audio file is missing, is empty, or waveform decoding
fails, `analyze_audio_metrics` returns exactly what the fallback extractor
`analyze_audio_simple` returns on the same inputs — no bare signal-extractor
error escapes to the caller. -/
theorem C1_resource_fallback (env : FileEnv) (audio_path transcript : String)
    (h : env.pathExists = false ∨ env.getsize = some 0 ∨ env.librosaLoad = none) :
    analyze_audio_metrics env audio_path transcript =
      analyze_audio_simple env audio_path transcript := by
  by_cases hl : env.hasLibrosa = false
  · simp [analyze_audio_metrics, hl]
  · have hl' : env.hasLibrosa = true := by simpa using hl
    by_cases hex : env.pathExists = false
    · simp [analyze_audio_metrics, hl', analyzeMetricsBody, hex, analyze_audio_simple,
        analyzeSimpleBody]
    · have hex' : env.pathExists = true := by simpa using hex
      rcases h with hab | hsz | hld
      · exact absurd hab hex
      · simp [analyze_audio_metrics, hl', analyzeMetricsBody, hex', hsz,
          analyze_audio_simple, analyzeSimpleBody]
      · cases hgs : env.getsize with
        | none =>
          simp [analyze_audio_metrics, hl', analyzeMetricsBody, hex', hgs]
        | some n =>
          by_cases hn : n = 0
          · subst hn
            simp [analyze_audio_metrics, hl', analyzeMetricsBody, hex', hgs,
              analyze_audio_simple, analyzeSimpleBody]
          · simp [analyze_audio_metrics, hl', analyzeMetricsBody, hex', hgs, hn, hld]

/-- Witness for C1_resource_fallback: a concrete environment whose audio file
is missing. -/
theorem C1_witness :
    analyze_audio_metrics envMissing "interview.wav" "hello" =
      analyze_audio_simple envMissing "interview.wav" "hello" :=
  C1_resource_fallback envMissing "interview.wav" "hello" (Or.inl rfl)

end Interview
